import Mathlib

/-
Shallow embedding of `src/asyncpg_fastapi/asyncpg_fastapi.py`.

The module defines a single class `ConfigureAsyncpg` (the spec's
LifecycleBinder + ResourceScope).  We embed it as a Lean structure plus
one Lean function per method.  Effects of the external driver
(`asyncpg.create_pool`, `pool.acquire`, `txn.start/commit/rollback`,
`pool.close`) and of the caller's work inside a scope are modelled as
explicit `Except Err Unit` / `Except Err Pool` outcome parameters, and
each method additionally returns the ordered trace of driver events it
performed.  `app.state` is the process-wide slot map `Nat → Option Pool`;
`setattr` is `Function.update`, `getattr` on a missing attribute is
`Err.notConfigured`.  The `uuid4` slot mint in `__init__` is modelled as
a fresh-name supply (a counter), which preserves the only property the
code relies on: distinct instances get distinct slot identifiers.
-/

namespace AsyncpgFastapi

/-- Opaque PoolHandle identity (pools are compared by identity only). -/
abbrev Pool := Nat

/-- Opaque identity of an init routine (`init_db` callable). -/
abbrev InitFn := Nat

/-- Failures that can cross the embedded functions.  `typeError` is
Python's TypeError from calling `None`; `notConfigured` is the
AttributeError raised by `getattr` on a missing `app.state` slot (the
spec's ConfigurationError / NotConfiguredError); `driver` and `caller`
are arbitrary driver-raised and caller-raised failures. -/
inductive Err where
  | typeError
  | notConfigured
  | driver (n : Nat)
  | caller (n : Nat)
deriving DecidableEq, Repr

/-- Driver events, recorded in the order the code performs them. -/
inductive Event where
  | createPool
  | acquire
  | release
  | initCall (f : InitFn)
  | txStart
  | txCommit
  | txRollback
  | close (p : Pool)
deriving DecidableEq, Repr

/-- Process-wide state: `app.state` as a map from slot identifier
(`_db_code`) to the stored PoolHandle. -/
abbrev AppState := Nat → Option Pool

/-- The `ConfigureAsyncpg` instance attributes set by `__init__`
(`self.app` is represented externally by the `AppState` argument of each
method; `con_opts` is opaque to every claim and omitted from the data,
as no embedded method inspects it). -/
structure ConfigureAsyncpg where
  dsn : String
  init_db : Option InitFn
  _pool : Option Pool
  _db_code : Nat
deriving DecidableEq, Repr

/-- `__init__`: records the attributes and mints `_db_code` from the
fresh supply (the model of `f"db{uuid4().hex}"`), returning the new
instance together with the advanced supply. -/
def init (dsn : String) (init_db : Option InitFn) (pool : Option Pool)
    (fresh : Nat) : ConfigureAsyncpg × Nat :=
  ({ dsn := dsn, init_db := init_db, _pool := pool, _db_code := fresh },
    fresh + 1)

/-- `on_connect`: if `self._pool` is set (bypass pool), store it and
return; otherwise create a pool (`createPoolRes`), run
`async with pool.acquire() as db: await self.init_db(db)` — note the
source calls `self.init_db(db)` unconditionally, so an absent routine
(`None`) raises TypeError — and on success store the new pool.
Returns (outcome, new app state, driver-event trace). -/
def on_connect (self : ConfigureAsyncpg) (st : AppState)
    (createPoolRes : Except Err Pool) (acquireRes : Except Err Unit)
    (initRes : Except Err Unit) :
    Except Err Unit × AppState × List Event :=
  match self._pool with
  | some p =>
      (Except.ok (), Function.update st self._db_code (some p), [])
  | none =>
    match createPoolRes with
    | Except.error e => (Except.error e, st, [Event.createPool])
    | Except.ok p =>
      match acquireRes with
      | Except.error e => (Except.error e, st, [Event.createPool])
      | Except.ok _ =>
        let callRes : Except Err Unit × List Event :=
          match self.init_db with
          | none => (Except.error Err.typeError, [])
          | some f => (initRes, [Event.initCall f])
        match callRes.1 with
        | Except.error e =>
            (Except.error e, st,
              [Event.createPool, Event.acquire] ++ callRes.2 ++ [Event.release])
        | Except.ok _ =>
            (Except.ok (), Function.update st self._db_code (some p),
              [Event.createPool, Event.acquire] ++ callRes.2 ++ [Event.release])

/-- `on_disconnect`: no-op when the pool came from outside; otherwise
`await getattr(self.app.state, self._db_code).close()`. -/
def on_disconnect (self : ConfigureAsyncpg) (st : AppState)
    (closeRes : Except Err Unit) : Except Err Unit × List Event :=
  match self._pool with
  | some _ => (Except.ok (), [])
  | none =>
    match st self._db_code with
    | none => (Except.error Err.notConfigured, [])
    | some p => (closeRes, [Event.close p])

/-- `on_init`: sets `self.init_db = func` and returns `func`. -/
def on_init (self : ConfigureAsyncpg) (func : InitFn) :
    ConfigureAsyncpg × InitFn :=
  ({ self with init_db := some func }, func)

/-- the `pool` property: `getattr(self.app.state, self._db_code)`. -/
def pool (self : ConfigureAsyncpg) (st : AppState) : Except Err Pool :=
  match st self._db_code with
  | none => Except.error Err.notConfigured
  | some p => Except.ok p

/-- `connection`: `async with self.pool.acquire() as db: yield db`.
`callerRes` is the outcome of the caller's work at the yield; the
`async with` releases the connection on every exit path before the
outcome is surfaced.  Returns (outcome, driver-event trace). -/
def connection (self : ConfigureAsyncpg) (st : AppState)
    (acquireRes : Except Err Unit) (callerRes : Except Err Unit) :
    Except Err Unit × List Event :=
  match pool self st with
  | Except.error e => (Except.error e, [])
  | Except.ok _ =>
    match acquireRes with
    | Except.error e => (Except.error e, [])
    | Except.ok _ => (callerRes, [Event.acquire, Event.release])

/-- `transaction`: acquire, `txn = db.transaction(); await txn.start()`,
then `try: yield db / except: await txn.rollback(); raise / else:
await txn.commit()`, all inside `async with self.pool.acquire()` whose
exit releases the connection on every path.  The bare `except` catches
any caller failure; a failing rollback or commit replaces the outcome
with its own failure (Python propagates the newer exception).
Returns (outcome, driver-event trace). -/
def transaction (self : ConfigureAsyncpg) (st : AppState)
    (acquireRes : Except Err Unit) (startRes : Except Err Unit)
    (callerRes : Except Err Unit) (commitRes : Except Err Unit)
    (rollbackRes : Except Err Unit) :
    Except Err Unit × List Event :=
  match pool self st with
  | Except.error e => (Except.error e, [])
  | Except.ok _ =>
    match acquireRes with
    | Except.error e => (Except.error e, [])
    | Except.ok _ =>
      let body : Except Err Unit × List Event :=
        match startRes with
        | Except.error e => (Except.error e, [Event.txStart])
        | Except.ok _ =>
          match callerRes with
          | Except.ok _ =>
            match commitRes with
            | Except.ok _ => (Except.ok (), [Event.txStart, Event.txCommit])
            | Except.error e =>
                (Except.error e, [Event.txStart, Event.txCommit])
          | Except.error e =>
            match rollbackRes with
            | Except.ok _ => (Except.error e, [Event.txStart, Event.txRollback])
            | Except.error e2 =>
                (Except.error e2, [Event.txStart, Event.txRollback])
      (body.1, Event.acquire :: body.2 ++ [Event.release])

/-- the module-level alias `atomic = transaction`. -/
def atomic := @transaction

/-!  Theorems about the embedded operations, one per claim. -/

/-- Claim C2: for every `transaction` invocation in which the caller's
work completes normally, commit is called exactly once on the started
Transaction and rollback is never called (universally over the commit
call's own outcome and the would-be rollback outcome). -/
theorem C2_transaction_commit_on_success (self : ConfigureAsyncpg)
    (st : AppState) (p : Pool) (commitRes rollbackRes : Except Err Unit)
    (hp : pool self st = Except.ok p) :
    let r := transaction self st (Except.ok ()) (Except.ok ())
      (Except.ok ()) commitRes rollbackRes
    r.2.count Event.txCommit = 1 ∧ Event.txRollback ∉ r.2 := by
  cases commitRes <;>
    simp [transaction, hp, List.count_cons, List.count_nil]

/-- Witness for C2 at a concrete instance, state and driver outcome. -/
theorem C2_witness :
    let r := transaction ⟨"dsn", none, none, 0⟩ (fun _ => some 7)
      (Except.ok ()) (Except.ok ()) (Except.ok ()) (Except.ok ())
      (Except.ok ())
    r.2.count Event.txCommit = 1 ∧ Event.txRollback ∉ r.2 :=
  C2_transaction_commit_on_success ⟨"dsn", none, none, 0⟩ (fun _ => some 7)
    7 (Except.ok ()) (Except.ok ()) rfl

/-- Claim C3: for every `connection` invocation that successfully
acquires a connection, the connection is released back to the pool
exactly once before the caller is resumed past the scope boundary
(the trace is acquire-then-release, and the caller's outcome is
surfaced unchanged afterwards), so acquire calls equal release calls,
whether the caller completes normally or raises. -/
theorem C3_connection_always_releases (self : ConfigureAsyncpg)
    (st : AppState) (p : Pool) (callerRes : Except Err Unit)
    (hp : pool self st = Except.ok p) :
    connection self st (Except.ok ()) callerRes
        = (callerRes, [Event.acquire, Event.release]) ∧
      (connection self st (Except.ok ()) callerRes).2.count Event.acquire
        = (connection self st (Except.ok ()) callerRes).2.count
            Event.release := by
  cases callerRes <;> simp [connection, hp]

/-- Witness for C3 with a caller that raises. -/
theorem C3_witness :
    connection ⟨"dsn", none, none, 0⟩ (fun _ => some 7) (Except.ok ())
        (Except.error (Err.caller 2))
        = (Except.error (Err.caller 2), [Event.acquire, Event.release]) ∧
      (connection ⟨"dsn", none, none, 0⟩ (fun _ => some 7) (Except.ok ())
          (Except.error (Err.caller 2))).2.count Event.acquire
        = (connection ⟨"dsn", none, none, 0⟩ (fun _ => some 7)
            (Except.ok ()) (Except.error (Err.caller 2))).2.count
            Event.release :=
  C3_connection_always_releases ⟨"dsn", none, none, 0⟩ (fun _ => some 7)
    7 (Except.error (Err.caller 2)) rfl

/-- Claim C10: for every `transaction` invocation in which the
Transaction's start call fails, neither commit nor rollback is
attempted, the start failure propagates unchanged, and the acquired
connection is still released exactly once. -/
theorem C10_transaction_start_failure (self : ConfigureAsyncpg)
    (st : AppState) (p : Pool) (e : Err)
    (callerRes commitRes rollbackRes : Except Err Unit)
    (hp : pool self st = Except.ok p) :
    let r := transaction self st (Except.ok ()) (Except.error e)
      callerRes commitRes rollbackRes
    r.1 = Except.error e ∧ Event.txCommit ∉ r.2 ∧
      Event.txRollback ∉ r.2 ∧ r.2.count Event.acquire = 1 ∧
      r.2.count Event.release = 1 := by
  simp [transaction, hp, List.count_cons, List.count_nil]

/-- Witness for C10 at a concrete failing start. -/
theorem C10_witness :
    let r := transaction ⟨"dsn", none, none, 0⟩ (fun _ => some 7)
      (Except.ok ()) (Except.error (Err.driver 3)) (Except.ok ())
      (Except.ok ()) (Except.ok ())
    r.1 = Except.error (Err.driver 3) ∧ Event.txCommit ∉ r.2 ∧
      Event.txRollback ∉ r.2 ∧ r.2.count Event.acquire = 1 ∧
      r.2.count Event.release = 1 :=
  C10_transaction_start_failure ⟨"dsn", none, none, 0⟩ (fun _ => some 7)
    7 (Err.driver 3) (Except.ok ()) (Except.ok ()) (Except.ok ()) rfl

/-- Claim C9: for every callable `f`, `on_init f` sets the instance's
init routine to `f`, replacing any previously registered routine, and
returns `f` itself unchanged. -/
theorem C9_on_init_registers_and_returns (self : ConfigureAsyncpg)
    (f : InitFn) :
    (on_init self f).1 = { self with init_db := some f } ∧
      (on_init self f).2 = f := by
  simp [on_init]

/-- Claim C1 (counterexample): the claim says the caller's original
failure is re-raised unchanged in every caller-failure invocation, but
when the rollback call itself fails the rollback failure propagates
instead of the original one: here the caller raised `Err.caller 0` and
the scope surfaces `Err.driver 1`. -/
theorem C1_counterexample :
    (transaction ⟨"dsn", none, none, 0⟩ (fun _ => some 7) (Except.ok ())
          (Except.ok ()) (Except.error (Err.caller 0)) (Except.ok ())
          (Except.error (Err.driver 1))).1
        = Except.error (Err.driver 1) ∧
      (Except.error (Err.driver 1) : Except Err Unit)
        ≠ Except.error (Err.caller 0) := by
  refine ⟨rfl, fun h => ?_⟩
  injection h with h
  exact absurd h (by decide)

/-- Claim C1 (amended): for every `transaction` invocation in which the
caller's work raises a failure, rollback is called exactly once on the
started Transaction and commit is never called; if the rollback call
itself succeeds the original failure is re-raised unchanged, and if the
rollback call fails its failure propagates instead. -/
theorem C1_transaction_rollback_on_caller_failure
    (self : ConfigureAsyncpg) (st : AppState) (p : Pool) (e : Err)
    (commitRes rollbackRes : Except Err Unit)
    (hp : pool self st = Except.ok p) :
    let r := transaction self st (Except.ok ()) (Except.ok ())
      (Except.error e) commitRes rollbackRes
    r.2.count Event.txRollback = 1 ∧ Event.txCommit ∉ r.2 ∧
      (rollbackRes = Except.ok () → r.1 = Except.error e) ∧
      (∀ e2, rollbackRes = Except.error e2 → r.1 = Except.error e2) := by
  cases rollbackRes <;>
    simp [transaction, hp, List.count_cons, List.count_nil]

/-- Witness for the amended C1 with a succeeding rollback. -/
theorem C1_witness :
    let r := transaction ⟨"dsn", none, none, 0⟩ (fun _ => some 7)
      (Except.ok ()) (Except.ok ()) (Except.error (Err.caller 0))
      (Except.ok ()) (Except.ok ())
    r.2.count Event.txRollback = 1 ∧ Event.txCommit ∉ r.2 ∧
      (Except.ok () = (Except.ok () : Except Err Unit) →
        r.1 = Except.error (Err.caller 0)) ∧
      (∀ e2, (Except.ok () : Except Err Unit) = Except.error e2 →
        r.1 = Except.error e2) :=
  C1_transaction_rollback_on_caller_failure ⟨"dsn", none, none, 0⟩
    (fun _ => some 7) 7 (Err.caller 0) (Except.ok ()) (Except.ok ()) rfl

/-- Claim C4: for every `transaction` invocation that acquires a
connection, the release happens exactly once and is the last event of
the scope, so every commit or rollback call happens-before the release;
and when the commit call (after a normal caller) or the rollback call
(after a failed caller) itself fails, that failure propagates to the
caller while the connection is still released. -/
theorem C4_transaction_ordering (self : ConfigureAsyncpg)
    (st : AppState) (p : Pool)
    (startRes callerRes commitRes rollbackRes : Except Err Unit)
    (hp : pool self st = Except.ok p) :
    let r := transaction self st (Except.ok ()) startRes callerRes
      commitRes rollbackRes
    r.2.count Event.release = 1 ∧
      r.2.getLast? = some Event.release ∧
      Event.release ∉ r.2.dropLast ∧
      (∀ e, callerRes = Except.ok () → commitRes = Except.error e →
        startRes = Except.ok () → r.1 = Except.error e) ∧
      (∀ e eo, callerRes = Except.error eo →
        rollbackRes = Except.error e → startRes = Except.ok () →
        r.1 = Except.error e) := by
  cases startRes <;> cases callerRes <;> cases commitRes <;>
      cases rollbackRes <;>
    simp [transaction, hp, List.count_cons, List.count_nil,
      List.getLast?, List.dropLast]

/-- Witness for C4 with a failing commit after a normal caller. -/
theorem C4_witness :
    let r := transaction ⟨"dsn", none, none, 0⟩ (fun _ => some 7)
      (Except.ok ()) (Except.ok ()) (Except.ok ())
      (Except.error (Err.driver 4)) (Except.ok ())
    r.2.count Event.release = 1 ∧
      r.2.getLast? = some Event.release ∧
      Event.release ∉ r.2.dropLast ∧
      (∀ e, (Except.ok () : Except Err Unit) = Except.ok () →
        (Except.error (Err.driver 4) : Except Err Unit) = Except.error e →
        (Except.ok () : Except Err Unit) = Except.ok () →
        r.1 = Except.error e) ∧
      (∀ e eo, (Except.ok () : Except Err Unit) = Except.error eo →
        (Except.ok () : Except Err Unit) = Except.error e →
        (Except.ok () : Except Err Unit) = Except.ok () →
        r.1 = Except.error e) :=
  C4_transaction_ordering ⟨"dsn", none, none, 0⟩ (fun _ => some 7) 7
    (Except.ok ()) (Except.ok ()) (Except.error (Err.driver 4))
    (Except.ok ()) rfl

/-- Claim C5: for every instance constructed with a bypass pool,
`on_connect` stores that handle at the instance's slot and performs no
driver call at all (in particular neither `create_pool` nor the init
routine), and `on_disconnect` performs no driver call (in particular no
`close`), both succeeding. -/
theorem C5_bypass_pool (self : ConfigureAsyncpg) (st : AppState)
    (p : Pool) (createPoolRes : Except Err Pool)
    (acquireRes initRes closeRes : Except Err Unit)
    (hbp : self._pool = some p) :
    on_connect self st createPoolRes acquireRes initRes
        = (Except.ok (), Function.update st self._db_code (some p), []) ∧
      on_disconnect self st closeRes = (Except.ok (), []) := by
  simp [on_connect, on_disconnect, hbp]

/-- Witness for C5 at a concrete bypass instance. -/
theorem C5_witness :
    on_connect ⟨"dsn", none, some 5, 0⟩ (fun _ => none) (Except.ok 9)
        (Except.ok ()) (Except.ok ())
        = (Except.ok (),
            Function.update (fun _ => none) 0 (some 5), []) ∧
      on_disconnect ⟨"dsn", none, some 5, 0⟩ (fun _ => none)
        (Except.ok ()) = (Except.ok (), []) :=
  C5_bypass_pool ⟨"dsn", none, some 5, 0⟩ (fun _ => none) 5
    (Except.ok 9) (Except.ok ()) (Except.ok ()) (Except.ok ()) rfl

/-- Claim C6: for every owned-path startup (no bypass pool) with a
registered init routine that raises, `on_connect` re-raises the init
routine's failure, leaves the process-wide state unchanged (the new
pool is never stored), and — the slot being still empty — the `pool`
accessor raises the not-configured error (the AttributeError the spec
calls ConfigurationError). -/
theorem C6_init_failure_aborts_startup (self : ConfigureAsyncpg)
    (st : AppState) (f : InitFn) (p : Pool) (e : Err)
    (hbp : self._pool = none) (hi : self.init_db = some f)
    (hempty : st self._db_code = none) :
    (on_connect self st (Except.ok p) (Except.ok ())
          (Except.error e)).1 = Except.error e ∧
      (on_connect self st (Except.ok p) (Except.ok ())
          (Except.error e)).2.1 = st ∧
      pool self (on_connect self st (Except.ok p) (Except.ok ())
          (Except.error e)).2.1 = Except.error Err.notConfigured := by
  refine ⟨?_, ?_, ?_⟩ <;> simp [on_connect, pool, hbp, hi, hempty]

/-- Witness for C6 at a concrete failing init routine. -/
theorem C6_witness :
    (on_connect ⟨"dsn", some 4, none, 0⟩ (fun _ => none) (Except.ok 9)
          (Except.ok ()) (Except.error (Err.caller 8))).1
        = Except.error (Err.caller 8) ∧
      (on_connect ⟨"dsn", some 4, none, 0⟩ (fun _ => none)
          (Except.ok 9) (Except.ok ())
          (Except.error (Err.caller 8))).2.1 = (fun _ => none) ∧
      pool ⟨"dsn", some 4, none, 0⟩
          (on_connect ⟨"dsn", some 4, none, 0⟩ (fun _ => none)
            (Except.ok 9) (Except.ok ())
            (Except.error (Err.caller 8))).2.1
        = Except.error Err.notConfigured :=
  C6_init_failure_aborts_startup ⟨"dsn", some 4, none, 0⟩
    (fun _ => none) 4 9 (Err.caller 8) rfl rfl rfl

/-- Claim C7 (refuting theorem): on the owned path with no init routine
registered (`init_db = None`), `on_connect` does not skip the init
step: the source calls `self.init_db(db)` unconditionally, so it raises
TypeError (calling `None`) and the new pool is never stored — contrary
to the claim that startup succeeds and stores the pool.  Shown here at
a concrete failing input. -/
theorem C7_missing_init_routine_crashes :
    (on_connect ⟨"postgresql://u@h:5432/db", none, none, 0⟩
          (fun _ => none) (Except.ok 9) (Except.ok ())
          (Except.ok ())).1 = Except.error Err.typeError ∧
      (on_connect ⟨"postgresql://u@h:5432/db", none, none, 0⟩
          (fun _ => none) (Except.ok 9) (Except.ok ())
          (Except.ok ())).2.1 0 = none := by
  exact ⟨rfl, rfl⟩

/-- a successful `on_connect` leaves some PoolHandle stored at the
instance's own slot (shared helper). -/
theorem on_connect_stores_of_ok (self : ConfigureAsyncpg) (st : AppState)
    (cp : Except Err Pool) (aq ir : Except Err Unit)
    (h : (on_connect self st cp aq ir).1 = Except.ok ()) :
    ∃ p : Pool,
      (on_connect self st cp aq ir).2.1 self._db_code = some p := by
  cases hbp : self._pool with
  | some p => exact ⟨p, by simp [on_connect, hbp]⟩
  | none =>
    cases cp with
    | error e => simp [on_connect, hbp] at h
    | ok p =>
      cases aq with
      | error e => simp [on_connect, hbp] at h
      | ok u =>
        cases hdi : self.init_db with
        | none => simp [on_connect, hbp, hdi] at h
        | some f =>
          cases ir with
          | error e => simp [on_connect, hbp, hdi] at h
          | ok u2 => exact ⟨p, by simp [on_connect, hbp, hdi]⟩

/-- an `on_connect` run never touches any slot other than the
instance's own (shared helper). -/
theorem on_connect_frame (self : ConfigureAsyncpg) (st : AppState)
    (cp : Except Err Pool) (aq ir : Except Err Unit) (k : Nat)
    (hk : k ≠ self._db_code) :
    (on_connect self st cp aq ir).2.1 k = st k := by
  cases hbp : self._pool <;> cases cp <;> cases aq <;>
    cases hdi : self.init_db <;> cases ir <;>
      simp [on_connect, hbp, hdi, Function.update_noteq hk]

/-- Claim C8: two instances constructed in sequence from the fresh
supply have distinct slot identifiers; after both startups complete
successfully, each instance's `pool` accessor returns the PoolHandle
that instance published, and neither startup touched the other
instance's slot. -/
theorem C8_two_instances (dsn1 dsn2 : String) (i1 i2 : Option InitFn)
    (bp1 bp2 : Option Pool) (n : Nat) (st st1 st2 : AppState)
    (cp1 cp2 : Except Err Pool) (aq1 aq2 ir1 ir2 : Except Err Unit)
    (b1 b2 : ConfigureAsyncpg)
    (hb1 : b1 = (init dsn1 i1 bp1 n).1)
    (hb2 : b2 = (init dsn2 i2 bp2 (init dsn1 i1 bp1 n).2).1)
    (hst1 : st1 = (on_connect b1 st cp1 aq1 ir1).2.1)
    (hst2 : st2 = (on_connect b2 st1 cp2 aq2 ir2).2.1)
    (h1 : (on_connect b1 st cp1 aq1 ir1).1 = Except.ok ())
    (h2 : (on_connect b2 st1 cp2 aq2 ir2).1 = Except.ok ()) :
    b1._db_code ≠ b2._db_code ∧
      st1 b2._db_code = st b2._db_code ∧
      st2 b1._db_code = st1 b1._db_code ∧
      (∃ p1, st1 b1._db_code = some p1 ∧ pool b1 st2 = Except.ok p1) ∧
      (∃ p2, st2 b2._db_code = some p2 ∧
        pool b2 st2 = Except.ok p2) := by
  have hc1 : b1._db_code = n := hb1 ▸ rfl
  have hc2 : b2._db_code = n + 1 := hb2 ▸ rfl
  have hne : b1._db_code ≠ b2._db_code := by rw [hc1, hc2]; omega
  have hframe1 : st1 b2._db_code = st b2._db_code := by
    rw [hst1]; exact on_connect_frame b1 st cp1 aq1 ir1 _ (Ne.symm hne)
  have hframe2 : st2 b1._db_code = st1 b1._db_code := by
    rw [hst2]; exact on_connect_frame b2 st1 cp2 aq2 ir2 _ hne
  obtain ⟨p1, hp1⟩ := on_connect_stores_of_ok b1 st cp1 aq1 ir1 h1
  obtain ⟨p2, hp2⟩ := on_connect_stores_of_ok b2 st1 cp2 aq2 ir2 h2
  rw [← hst1] at hp1
  rw [← hst2] at hp2
  refine ⟨hne, hframe1, hframe2, ⟨p1, hp1, ?_⟩, ⟨p2, hp2, ?_⟩⟩
  · have h12 : st2 b1._db_code = some p1 := by rw [hframe2, hp1]
    simp [pool, h12]
  · simp [pool, hp2]

/-- Witness for C8: two bypass-pool instances minted from fresh
supply 0, started one after the other on an empty state. -/
theorem C8_witness :
    let b1 : ConfigureAsyncpg := ⟨"a", none, some 1, 0⟩
    let b2 : ConfigureAsyncpg := ⟨"b", none, some 2, 1⟩
    let st0 : AppState := fun _ => none
    let st1 := (on_connect b1 st0 (Except.ok 9) (Except.ok ())
      (Except.ok ())).2.1
    let st2 := (on_connect b2 st1 (Except.ok 9) (Except.ok ())
      (Except.ok ())).2.1
    b1._db_code ≠ b2._db_code ∧
      st1 b2._db_code = st0 b2._db_code ∧
      st2 b1._db_code = st1 b1._db_code ∧
      (∃ p1, st1 b1._db_code = some p1 ∧ pool b1 st2 = Except.ok p1) ∧
      (∃ p2, st2 b2._db_code = some p2 ∧ pool b2 st2 = Except.ok p2) :=
  C8_two_instances "a" "b" none none (some 1) (some 2) 0 (fun _ => none)
    _ _ (Except.ok 9) (Except.ok 9) (Except.ok ()) (Except.ok ())
    (Except.ok ()) (Except.ok ()) ⟨"a", none, some 1, 0⟩
    ⟨"b", none, some 2, 1⟩ rfl rfl rfl rfl rfl rfl

end AsyncpgFastapi
